import Mathlib

/-!
Verification of the `OpenMeteoHistoricalAPI` client
(`src/open_meteo_api.py`) against its specification.

The embedding is shallow: the Python class becomes a `Config` structure,
the two class-level variable catalogs become lists of strings (Python set
literals with pairwise-distinct elements, so list membership coincides
with set membership), `_build_params` becomes a pure function producing
an association list (Python dicts preserve insertion order), and
`to_dataframe` becomes a function from an optional JSON payload to
`Except PyError DFResult`, where `PyError` distinguishes the `ValueError`s
the source raises (by message) from `KeyError`s arising from dict/column
indexing, and a minimal model of `pandas.DataFrame` construction from a
dict of parallel arrays.
-/

namespace OpenMeteo

/-- The class attribute `HOURLY_VARIABLES` (a Python set literal), in source
order.  The literal's 36 elements are pairwise distinct, so the set has one
element per literal. -/
def HOURLY_VARIABLES : List String :=
  ["temperature_2m", "relative_humidity_2m", "dew_point_2m", "apparent_temperature",
   "pressure_msl", "surface_pressure", "precipitation", "rain", "snowfall",
   "cloud_cover", "cloud_cover_low", "cloud_cover_mid", "cloud_cover_high",
   "shortwave_radiation", "direct_radiation", "direct_normal_irradiance",
   "diffuse_radiation", "global_tilted_irradiance", "sunshine_duration",
   "wind_speed_10m", "wind_speed_100m", "wind_direction_10m", "wind_direction_100m",
   "wind_gusts_10m", "et0_fao_evapotranspiration", "weather_code", "snow_depth",
   "vapour_pressure_deficit", "soil_temperature_0_to_7cm", "soil_temperature_7_to_28cm",
   "soil_temperature_28_to_100cm", "soil_temperature_100_to_255cm",
   "soil_moisture_0_to_7cm", "soil_moisture_7_to_28cm",
   "soil_moisture_28_to_100cm", "soil_moisture_100_to_255cm"]

/-- The class attribute `DAILY_VARIABLES` (a Python set literal), in source
order. -/
def DAILY_VARIABLES : List String :=
  ["weather_code", "temperature_2m_max", "temperature_2m_min",
   "apparent_temperature_max", "apparent_temperature_min",
   "precipitation_sum", "rain_sum", "snowfall_sum", "precipitation_hours",
   "sunrise", "sunset", "sunshine_duration", "daylight_duration",
   "wind_speed_10m_max", "wind_gusts_10m_max", "wind_direction_10m_dominant",
   "shortwave_radiation_sum", "et0_fao_evapotranspiration"]

/-- Python exceptions that the source (or the library calls it makes) can
raise on the paths we model: `ValueError(msg)` and `KeyError(key)`. -/
inductive PyError where
  | valueError (msg : String)
  | keyError (key : String)
deriving DecidableEq, Repr

/-- A value in a query-parameter dict: Python strings and numbers
(latitude/longitude/elevation; modelled as rationals). -/
inductive PVal where
  | str (s : String)
  | num (q : ℚ)
deriving DecidableEq, Repr

/-- The constructor arguments / instance attributes of
`OpenMeteoHistoricalAPI` (`__init__`, lines 30–58).  `model : str = None` and
`elevation : float = None` are optional, so they become `Option`s; `none`
is Python `None` ("not provided"). -/
structure Config where
  latitude : ℚ
  longitude : ℚ
  variableList : List String
  start_date : String
  end_date : String
  timezone : String := "auto"
  temperature_unit : String := "celsius"
  wind_speed_unit : String := "kmh"
  precipitation_unit : String := "mm"
  timeformat : String := "iso8601"
  model : Option String := none
  elevation : Option ℚ := none
  cell_selection : String := "land"
deriving DecidableEq, Repr

/-- Line 60: `self.hourly_vars = [v for v in variables if v in self.HOURLY_VARIABLES]`. -/
def classify_hourly (variableList : List String) : List String :=
  variableList.filter (fun v => HOURLY_VARIABLES.contains v)

/-- Line 61: `self.daily_vars = [v for v in variables if v in self.DAILY_VARIABLES]`. -/
def classify_daily (variableList : List String) : List String :=
  variableList.filter (fun v => DAILY_VARIABLES.contains v)

/-- The instance attribute `self.hourly_vars`. -/
def hourly_vars (c : Config) : List String := classify_hourly c.variableList

/-- The instance attribute `self.daily_vars`. -/
def daily_vars (c : Config) : List String := classify_daily c.variableList

/-- Lines 63–64 of `__init__`: after classification, raise
`ValueError("No valid variables found in hourly or daily categories.")`
when both lists are empty, otherwise construction succeeds and yields the
instance. -/
def mkOpenMeteoHistoricalAPI (c : Config) : Except PyError Config :=
  if hourly_vars c = [] ∧ daily_vars c = [] then
    .error (.valueError "No valid variables found in hourly or daily categories.")
  else
    .ok c

/-- `_build_params` (lines 66–89): a dict with ten unconditional entries, then
`hourly`/`daily` comma-joins added when the corresponding list is non-empty
(Python truthiness of a list), `model` added when `self.model` is truthy
(a non-`None`, non-empty string), and `elevation` added when
`self.elevation is not None`.  The dict is modelled as an association list
in insertion order. -/
def build_params (c : Config) : List (String × PVal) :=
  [("latitude", PVal.num c.latitude),
   ("longitude", PVal.num c.longitude),
   ("start_date", PVal.str c.start_date),
   ("end_date", PVal.str c.end_date),
   ("timezone", PVal.str c.timezone),
   ("temperature_unit", PVal.str c.temperature_unit),
   ("wind_speed_unit", PVal.str c.wind_speed_unit),
   ("precipitation_unit", PVal.str c.precipitation_unit),
   ("timeformat", PVal.str c.timeformat),
   ("cell_selection", PVal.str c.cell_selection)]
  ++ (if hourly_vars c ≠ [] then
        [("hourly", PVal.str (String.intercalate "," (hourly_vars c)))] else [])
  ++ (if daily_vars c ≠ [] then
        [("daily", PVal.str (String.intercalate "," (daily_vars c)))] else [])
  ++ (match c.model with
      | some m => if m ≠ "" then [("model", PVal.str m)] else []
      | none => [])
  ++ (match c.elevation with
      | some e => [("elevation", PVal.num e)]
      | none => [])

/-- Python dict subscription `d[k]` on an insertion-ordered association
list: the value at the first (and, for dicts, only) occurrence of `k`. -/
def dictGet {β : Type} (k : String) : List (String × β) → Option β
  | [] => none
  | (a, b) :: ps => if a = k then some b else dictGet k ps

/-- Does the parameter dict contain key `k`? -/
def hasParam (ps : List (String × PVal)) (k : String) : Bool :=
  (dictGet k ps).isSome

/-- A JSON scalar appearing in the response arrays: a string or a number. -/
inductive JVal where
  | str (s : String)
  | num (q : ℚ)
deriving DecidableEq, Repr

/-- An `hourly`/`daily` section of the decoded payload: a JSON object mapping
field names to parallel arrays of values, modelled as an association list in
key order. -/
abbrev SectionData := List (String × List JVal)

/-- The result of `pd.to_datetime` on one array element: an opaque parsed
timestamp, determined by the raw value it was parsed from. -/
structure Timestamp where
  ofVal : JVal
deriving DecidableEq, Repr

/-- `pd.to_datetime`, elementwise. -/
def to_datetime (v : JVal) : Timestamp := ⟨v⟩

/-- A `pandas.DataFrame` after `set_index("time")`: a row index of parsed
timestamps plus the remaining named columns in order. -/
structure DataFrame where
  index : List Timestamp
  columns : List (String × List JVal)
deriving DecidableEq, Repr

/-- The decoded JSON payload returned by `fetch` on success.  The code only
tests membership of `"hourly"`/`"daily"` and reads those keys, so the payload
is modelled by those two optional sections. -/
structure Payload where
  hourly : Option SectionData := none
  daily : Option SectionData := none
deriving DecidableEq, Repr

/-- `pd.DataFrame(dict)` requires all column arrays to have equal length. -/
def sameLengths (sec : SectionData) : Bool :=
  match sec with
  | [] => true
  | (_, vs) :: rest => rest.all (fun p => p.2.length = vs.length)

/-- Lines 110–112 (and identically 116–118): build a `DataFrame` from a
section dict, replace its `time` column by the parsed timestamps and make
that the index.  `pd.DataFrame` raises `ValueError` on ragged arrays, and
`df["time"]` raises `KeyError("time")` when the section has no `time` field. -/
def make_df (sec : SectionData) : Except PyError DataFrame :=
  if sameLengths sec then
    match dictGet "time" sec with
    | none => .error (.keyError "time")
    | some tvals =>
        .ok { index := tvals.map to_datetime,
              columns := sec.filter (fun p => p.1 ≠ "time") }
  else
    .error (.valueError "All arrays must be of the same length")

/-- The value returned by `to_dataframe`: either a single `DataFrame` or the
`dfs` dict itself (an association list in insertion order). -/
inductive DFResult where
  | single (df : DataFrame)
  | mapping (dfs : List (String × DataFrame))
deriving DecidableEq, Repr

/-- `to_dataframe` (lines 101–124), starting from the value `fetch` produced
(`none` models a fetch that failed and returned `None`):
raise `ValueError` when there is no payload; build the `dfs` dict with an
`"hourly"` entry and then a `"daily"` entry for whichever sections are
present; raise `ValueError` when `dfs` is empty; finally
`return dfs["hourly"] if len(dfs) == 1 else dfs` — which raises
`KeyError("hourly")` when the one entry is `"daily"`. -/
def to_dataframe (data : Option Payload) : Except PyError DFResult :=
  match data with
  | none => .error (.valueError "No data fetched from API.")
  | some d => do
    let dfs ← (match d.hourly with
               | some sec => (make_df sec).map (fun df => [("hourly", df)])
               | none => .ok [])
    let dfs ← (match d.daily with
               | some sec => (make_df sec).map (fun df => dfs ++ [("daily", df)])
               | none => .ok dfs)
    if dfs = [] then
      .error (.valueError "No 'hourly' or 'daily' data found in API response.")
    else if dfs.length = 1 then
      match dictGet "hourly" dfs with
      | some df => .ok (.single df)
      | none => .error (.keyError "hourly")
    else
      .ok (.mapping dfs)

/-- Is this error one of the two `DataUnavailableError`s of the spec's
taxonomy, i.e. one of the two `ValueError`s `to_dataframe` itself raises? -/
def isDataUnavailableError (e : PyError) : Bool :=
  match e with
  | .valueError msg =>
      msg = "No data fetched from API." ||
      msg = "No 'hourly' or 'daily' data found in API response."
  | .keyError _ => false

/-- Did a call of `to_dataframe` raise a `DataUnavailableError`? -/
def raisesDataUnavailable (r : Except PyError DFResult) : Bool :=
  match r with
  | .error e => isDataUnavailableError e
  | .ok _ => false

/-! ### Concrete inputs used by witnesses and counterexamples -/

/-- A well-formed construction whose `model` argument is the (falsy) empty
string. -/
def configEmptyModel : Config :=
  { latitude := 52, longitude := 13, variableList := ["temperature_2m"],
    start_date := "2023-01-01", end_date := "2023-01-02", model := some "" }

/-- A well-formed construction with `elevation=0` explicitly provided. -/
def configElevationZero : Config :=
  { latitude := 52, longitude := 13, variableList := ["temperature_2m"],
    start_date := "2023-01-01", end_date := "2023-01-02", elevation := some 0 }

/-- A well-formed construction requesting a variable that is in both
catalogs. -/
def configWeatherCode : Config :=
  { latitude := 52, longitude := 13, variableList := ["weather_code"],
    start_date := "2023-01-01", end_date := "2023-01-02" }

/-- A well-formed construction with a thrice-repeated hourly variable. -/
def configRainThrice : Config :=
  { latitude := 52, longitude := 13, variableList := ["rain", "rain", "rain"],
    start_date := "2023-01-01", end_date := "2023-01-02" }

/-- A daily-only section, as returned by the API for a daily-only request. -/
def dailyOnlySection : SectionData :=
  [("time", [JVal.str "2020-01-01"]), ("rain_sum", [JVal.num 0])]

/-- A payload containing only a `daily` object. -/
def dailyOnlyPayload : Payload := { daily := some dailyOnlySection }

/-- The hourly-only round-trip section of the spec:
`time: ["2020-01-01T00:00","2020-01-01T01:00"], temperature_2m: [1.0, 2.0]`. -/
def hourlyRoundTripSection : SectionData :=
  [("time", [JVal.str "2020-01-01T00:00", JVal.str "2020-01-01T01:00"]),
   ("temperature_2m", [JVal.num 1, JVal.num 2])]

/-- A payload containing only the round-trip `hourly` object. -/
def hourlyRoundTripPayload : Payload := { hourly := some hourlyRoundTripSection }

/-! ### Helper lemmas about `dictGet` -/

@[simp] theorem dictGet_nil {β : Type} (k : String) :
    dictGet k ([] : List (String × β)) = none := rfl

@[simp] theorem dictGet_cons {β : Type} (k a : String) (b : β)
    (ps : List (String × β)) :
    dictGet k ((a, b) :: ps) = if a = k then some b else dictGet k ps := rfl

@[simp] theorem dictGet_append {β : Type} (k : String)
    (l m : List (String × β)) :
    dictGet k (l ++ m) = ((dictGet k l).rec (dictGet k m) fun b => some b) := by
  induction l with
  | nil => rfl
  | cons p ps ih =>
      obtain ⟨a, b⟩ := p
      by_cases h : a = k <;> simp [dictGet, h, ih]

/-! ### Helper lemmas about `build_params` -/

theorem dictGet_build_params_hourly (c : Config) (h : hourly_vars c ≠ []) :
    dictGet "hourly" (build_params c)
      = some (PVal.str (String.intercalate "," (hourly_vars c))) := by
  unfold build_params
  rcases c.elevation with _ | e <;>
  rcases c.model with _ | m <;>
  by_cases hd : daily_vars c = [] <;>
  simp [h, hd]

theorem dictGet_build_params_daily (c : Config) (h : daily_vars c ≠ []) :
    dictGet "daily" (build_params c)
      = some (PVal.str (String.intercalate "," (daily_vars c))) := by
  unfold build_params
  rcases c.elevation with _ | e <;>
  rcases c.model with _ | m <;>
  by_cases hh : hourly_vars c = [] <;>
  simp [h, hh]

theorem dictGet_build_params_elevation (c : Config) :
    dictGet "elevation" (build_params c) = c.elevation.map PVal.num := by
  unfold build_params
  rcases c.elevation with _ | e <;>
  rcases c.model with _ | m <;>
  by_cases hh : hourly_vars c = [] <;>
  by_cases hd : daily_vars c = [] <;>
  simp [hh, hd] <;>
  by_cases hm : m = "" <;>
  simp [hm]

theorem hasParam_build_params_base (c : Config) :
    hasParam (build_params c) "latitude" = true ∧
    hasParam (build_params c) "longitude" = true ∧
    hasParam (build_params c) "start_date" = true ∧
    hasParam (build_params c) "end_date" = true ∧
    hasParam (build_params c) "timezone" = true ∧
    hasParam (build_params c) "temperature_unit" = true ∧
    hasParam (build_params c) "wind_speed_unit" = true ∧
    hasParam (build_params c) "precipitation_unit" = true ∧
    hasParam (build_params c) "timeformat" = true ∧
    hasParam (build_params c) "cell_selection" = true := by
  unfold hasParam build_params
  simp

theorem hasParam_build_params_hourly (c : Config) :
    hasParam (build_params c) "hourly" = true ↔ hourly_vars c ≠ [] := by
  unfold hasParam build_params
  rcases c.elevation with _ | e <;>
  rcases c.model with _ | m <;>
  by_cases hh : hourly_vars c = [] <;>
  by_cases hd : daily_vars c = [] <;>
  simp [hh, hd] <;>
  by_cases hm : m = "" <;>
  simp [hm]

theorem hasParam_build_params_daily (c : Config) :
    hasParam (build_params c) "daily" = true ↔ daily_vars c ≠ [] := by
  unfold hasParam build_params
  rcases c.elevation with _ | e <;>
  rcases c.model with _ | m <;>
  by_cases hh : hourly_vars c = [] <;>
  by_cases hd : daily_vars c = [] <;>
  simp [hh, hd] <;>
  by_cases hm : m = "" <;>
  simp [hm]

theorem hasParam_build_params_model (c : Config) :
    hasParam (build_params c) "model" = true ↔
      ∃ m, c.model = some m ∧ m ≠ "" := by
  unfold hasParam build_params
  rcases c.elevation with _ | e <;>
  rcases c.model with _ | m <;>
  by_cases hh : hourly_vars c = [] <;>
  by_cases hd : daily_vars c = [] <;>
  simp [hh, hd] <;>
  by_cases hm : m = "" <;>
  simp [hm]

theorem hasParam_build_params_elevation (c : Config) :
    hasParam (build_params c) "elevation" = true ↔ c.elevation ≠ none := by
  unfold hasParam build_params
  rcases c.elevation with _ | e <;>
  rcases c.model with _ | m <;>
  by_cases hh : hourly_vars c = [] <;>
  by_cases hd : daily_vars c = [] <;>
  simp [hh, hd] <;>
  by_cases hm : m = "" <;>
  simp [hm]

/-- Any error raised while building one of the two tables (`pd.DataFrame` on
ragged arrays, or a missing `time` column) is not one of the two
`DataUnavailableError`s of the taxonomy. -/
theorem make_df_error_not_data_unavailable (sec : SectionData) (e : PyError)
    (h : make_df sec = .error e) : isDataUnavailableError e = false := by
  unfold make_df at h
  by_cases hl : sameLengths sec = true
  · rcases ht : dictGet "time" sec with _ | tv <;> simp [hl, ht] at h
    subst h; rfl
  · simp [hl] at h
    subst h; rfl

/-! ### Claim theorems -/

/-- Claim C1 (code bug).  The claim says that when exactly one of the two
tables was produced, `to_dataframe` returns that single table, in particular
the daily table for a daily-only payload.  The code instead executes
`return dfs["hourly"] if len(dfs) == 1 else dfs` (line 124), which raises
`KeyError("hourly")` for a daily-only payload even though the daily table
was built successfully — contradicting the function's own docstring
("returns one or two DataFrames depending on available frequency"). -/
theorem to_dataframe_daily_only_raises_keyerror :
    to_dataframe (some dailyOnlyPayload) = .error (.keyError "hourly") ∧
    make_df dailyOnlySection
      = .ok { index := [to_datetime (JVal.str "2020-01-01")],
              columns := [("rain_sum", [JVal.num 0])] } :=
  ⟨rfl, rfl⟩

/-- Claim C2 (counterexample).  A request constructed with the explicitly
provided empty-string model is a valid construction, yet its parameter dict
has no `"model"` key: line 84 tests Python truthiness (`if self.model:`),
not `is not None`, so a provided falsy model is dropped. -/
theorem build_params_empty_model_dropped :
    mkOpenMeteoHistoricalAPI configEmptyModel = .ok configEmptyModel ∧
    configEmptyModel.model = some "" ∧
    hasParam (build_params configEmptyModel) "model" = false := by
  refine ⟨rfl, rfl, by decide⟩

/-- Claim C2 (amended).  For every constructed request, the parameter dict
contains the ten base keys; it contains `"hourly"` iff `hourly_vars` is
non-empty, `"daily"` iff `daily_vars` is non-empty, `"elevation"` iff an
elevation was provided (including falsy values such as `0`), and `"model"`
iff a model was provided *and is non-empty* (Python truthiness), the empty
string being dropped. -/
theorem build_params_key_presence (c : Config)
    (_h : mkOpenMeteoHistoricalAPI c = .ok c) :
    (hasParam (build_params c) "latitude" = true ∧
     hasParam (build_params c) "longitude" = true ∧
     hasParam (build_params c) "start_date" = true ∧
     hasParam (build_params c) "end_date" = true ∧
     hasParam (build_params c) "timezone" = true ∧
     hasParam (build_params c) "temperature_unit" = true ∧
     hasParam (build_params c) "wind_speed_unit" = true ∧
     hasParam (build_params c) "precipitation_unit" = true ∧
     hasParam (build_params c) "timeformat" = true ∧
     hasParam (build_params c) "cell_selection" = true) ∧
    (hasParam (build_params c) "hourly" = true ↔ hourly_vars c ≠ []) ∧
    (hasParam (build_params c) "daily" = true ↔ daily_vars c ≠ []) ∧
    (hasParam (build_params c) "model" = true ↔
        ∃ m, c.model = some m ∧ m ≠ "") ∧
    (hasParam (build_params c) "elevation" = true ↔ c.elevation ≠ none) :=
  ⟨hasParam_build_params_base c,
   hasParam_build_params_hourly c,
   hasParam_build_params_daily c,
   hasParam_build_params_model c,
   hasParam_build_params_elevation c⟩

/-- Witness for the amended C2, at the construction with the empty-string
model and no elevation. -/
theorem build_params_key_presence_witness :
    hasParam (build_params configEmptyModel) "latitude" = true ∧
    hasParam (build_params configEmptyModel) "hourly" = true ∧
    hasParam (build_params configEmptyModel) "daily" = false ∧
    hasParam (build_params configEmptyModel) "model" = false ∧
    hasParam (build_params configEmptyModel) "elevation" = false := by
  have h := build_params_key_presence configEmptyModel rfl
  refine ⟨h.1.1, ?_, ?_, ?_, ?_⟩
  · exact h.2.1.mpr (by decide)
  · have := h.2.2.1
    revert this
    decide
  · have := h.2.2.2.1
    revert this
    decide
  · have := h.2.2.2.2
    revert this
    decide

/-- Claim C3 (confirmed).  Classification partitions the requested variable
list: each bucket is an order-preserving sublist of the input, a variable is
in a bucket iff it occurs in the input and belongs to that catalog, and a
variable in neither catalog lands in neither bucket. -/
theorem classification_partition_spec (V : List String) :
    (classify_hourly V).Sublist V ∧
    (classify_daily V).Sublist V ∧
    (∀ v, v ∈ classify_hourly V ↔ v ∈ V ∧ v ∈ HOURLY_VARIABLES) ∧
    (∀ v, v ∈ classify_daily V ↔ v ∈ V ∧ v ∈ DAILY_VARIABLES) ∧
    (∀ v, v ∉ HOURLY_VARIABLES → v ∉ DAILY_VARIABLES →
        v ∉ classify_hourly V ∧ v ∉ classify_daily V) := by
  refine ⟨List.filter_sublist V, List.filter_sublist V, ?_, ?_, ?_⟩
  · intro v
    simp [classify_hourly, List.mem_filter]
  · intro v
    simp [classify_daily, List.mem_filter]
  · intro v hH hD
    constructor
    · simp [classify_hourly, List.mem_filter, hH]
    · simp [classify_daily, List.mem_filter, hD]

/-- Witness for C3: in the spec's scenario list extended with an unknown
name, `temperature_2m` is hourly-only, `sunrise` daily-only, and the unknown
name is dropped from both buckets. -/
theorem classification_partition_spec_witness :
    classify_hourly ["temperature_2m", "sunrise", "bogus"] = ["temperature_2m"] ∧
    classify_daily ["temperature_2m", "sunrise", "bogus"] = ["sunrise"] ∧
    "bogus" ∉ classify_hourly ["temperature_2m", "sunrise", "bogus"] ∧
    "bogus" ∉ classify_daily ["temperature_2m", "sunrise", "bogus"] := by
  have h := (classification_partition_spec
      ["temperature_2m", "sunrise", "bogus"]).2.2.2.2 "bogus" (by decide) (by decide)
  exact ⟨by decide, by decide, h.1, h.2⟩

/-- Claim C4 (confirmed).  Construction raises the
no-valid-variables `ValueError` (the spec's `ConfigurationError`) iff both
classified lists are empty; otherwise it succeeds. -/
theorem construction_raises_iff_no_valid_variables (c : Config) :
    (∃ e, mkOpenMeteoHistoricalAPI c = .error e) ↔
      (hourly_vars c = [] ∧ daily_vars c = []) := by
  unfold mkOpenMeteoHistoricalAPI
  by_cases h : hourly_vars c = [] ∧ daily_vars c = [] <;> simp [h]

/-- Claim C5 (confirmed).  `to_dataframe` raises a `DataUnavailableError`
(one of its two `ValueError`s) in exactly two situations: `fetch` produced
no payload, or the payload has neither an `hourly` nor a `daily` key.  In
every other situation no `DataUnavailableError` is raised (although a
daily-only payload raises a `KeyError`, which is a different error). -/
theorem to_dataframe_data_unavailable_iff (data : Option Payload) :
    raisesDataUnavailable (to_dataframe data) = true ↔
      (data = none ∨ ∃ d, data = some d ∧ d.hourly = none ∧ d.daily = none) := by
  rcases data with _ | ⟨ho, dq⟩
  · simp [to_dataframe, raisesDataUnavailable, isDataUnavailableError]
  · rcases ho with _ | hsec
    · rcases dq with _ | dsec
      · simp [to_dataframe, raisesDataUnavailable, isDataUnavailableError,
              bind, Except.bind]
      · rcases hmk : make_df dsec with e | df
        · have he := make_df_error_not_data_unavailable _ _ hmk
          simp [to_dataframe, hmk, raisesDataUnavailable, he, bind,
                Except.bind, Except.map]
        · simp [to_dataframe, hmk, raisesDataUnavailable,
                isDataUnavailableError, bind, Except.bind, Except.map]
    · rcases hmk : make_df hsec with e | df
      · have he := make_df_error_not_data_unavailable _ _ hmk
        simp [to_dataframe, hmk, raisesDataUnavailable, he, bind,
              Except.bind, Except.map]
      · rcases dq with _ | dsec
        · simp [to_dataframe, hmk, raisesDataUnavailable, bind,
                Except.bind, Except.map]
        · rcases hmk2 : make_df dsec with e2 | df2
          · have he := make_df_error_not_data_unavailable _ _ hmk2
            simp [to_dataframe, hmk, hmk2, raisesDataUnavailable, he, bind,
                  Except.bind, Except.map]
          · simp [to_dataframe, hmk, hmk2, raisesDataUnavailable, bind,
                  Except.bind, Except.map]

/-- Claim C6 (counterexample).  The hourly catalog does not have 35 names:
its 36 listed names are pairwise distinct. -/
theorem hourly_catalog_card_ne_35 :
    ¬ (HOURLY_VARIABLES.dedup.length = 35) := by decide

/-- Claim C6 (amended).  The embedded hourly variable catalog contains
exactly 36 (pairwise-distinct) names and the daily catalog exactly 18. -/
theorem catalog_sizes :
    (HOURLY_VARIABLES.Nodup ∧ HOURLY_VARIABLES.length = 36) ∧
    (DAILY_VARIABLES.Nodup ∧ DAILY_VARIABLES.length = 18) := by decide

/-- Claim C7 (confirmed).  An explicitly provided zero elevation is kept:
line 86 tests `is not None`, so `elevation=0` produces the entry
`"elevation": 0`, while an unprovided elevation omits the key. -/
theorem build_params_zero_elevation (c : Config) :
    (c.elevation = some 0 →
        dictGet "elevation" (build_params c) = some (PVal.num 0)) ∧
    (c.elevation = none → dictGet "elevation" (build_params c) = none) := by
  refine ⟨fun h => ?_, fun h => ?_⟩ <;>
    rw [dictGet_build_params_elevation, h] <;> rfl

/-- Witness for C7, at a construction with `elevation=0`. -/
theorem build_params_zero_elevation_witness :
    dictGet "elevation" (build_params configElevationZero) = some (PVal.num 0) :=
  (build_params_zero_elevation configElevationZero).1 rfl

/-- Claim C9 (confirmed).  The two catalogs share exactly
`sunshine_duration`, `et0_fao_evapotranspiration` and `weather_code`; any
requested variable lying in both catalogs is classified into both buckets
and hence occurs in the comma-joined string sent as the `"hourly"` parameter
as well as in the one sent as the `"daily"` parameter. -/
theorem catalog_overlap_sent_twice :
    HOURLY_VARIABLES.filter (fun x => DAILY_VARIABLES.contains x)
      = ["sunshine_duration", "et0_fao_evapotranspiration", "weather_code"] ∧
    ∀ c : Config, ∀ v, v ∈ c.variableList → v ∈ HOURLY_VARIABLES →
      v ∈ DAILY_VARIABLES →
      v ∈ hourly_vars c ∧ v ∈ daily_vars c ∧
      dictGet "hourly" (build_params c)
        = some (PVal.str (String.intercalate "," (hourly_vars c))) ∧
      dictGet "daily" (build_params c)
        = some (PVal.str (String.intercalate "," (daily_vars c))) := by
  refine ⟨by decide, fun c v hv hH hD => ?_⟩
  have hmemH : v ∈ hourly_vars c := by
    simp [hourly_vars, classify_hourly, List.mem_filter, hv, hH]
  have hmemD : v ∈ daily_vars c := by
    simp [daily_vars, classify_daily, List.mem_filter, hv, hD]
  refine ⟨hmemH, hmemD, ?_, ?_⟩
  · exact dictGet_build_params_hourly c (List.ne_nil_of_mem hmemH)
  · exact dictGet_build_params_daily c (List.ne_nil_of_mem hmemD)

/-- Witness for C9: requesting `weather_code` alone yields it in both
buckets and in both query parameters of the same request. -/
theorem catalog_overlap_sent_twice_witness :
    "weather_code" ∈ hourly_vars configWeatherCode ∧
    "weather_code" ∈ daily_vars configWeatherCode ∧
    dictGet "hourly" (build_params configWeatherCode)
      = some (PVal.str "weather_code") ∧
    dictGet "daily" (build_params configWeatherCode)
      = some (PVal.str "weather_code") := by
  have h := catalog_overlap_sent_twice.2 configWeatherCode "weather_code"
      (by decide) (by decide) (by decide)
  refine ⟨h.1, h.2.1, ?_, ?_⟩
  · rw [h.2.2.1]; rfl
  · rw [h.2.2.2]; rfl

/-- Claim C10 (confirmed).  Classification keeps duplicates: a catalogued
name occurring `k` times in the request occurs `k` times in its bucket, and
the bucket is comma-joined verbatim into the `"hourly"`/`"daily"` parameter
value. -/
theorem classification_no_dedup (V : List String) (v : String) :
    (v ∈ HOURLY_VARIABLES → (classify_hourly V).count v = V.count v) ∧
    (v ∈ DAILY_VARIABLES → (classify_daily V).count v = V.count v) ∧
    (∀ c : Config, hourly_vars c ≠ [] →
        dictGet "hourly" (build_params c)
          = some (PVal.str (String.intercalate "," (hourly_vars c)))) ∧
    (∀ c : Config, daily_vars c ≠ [] →
        dictGet "daily" (build_params c)
          = some (PVal.str (String.intercalate "," (daily_vars c)))) := by
  refine ⟨fun hH => ?_, fun hD => ?_,
          fun c h => dictGet_build_params_hourly c h,
          fun c h => dictGet_build_params_daily c h⟩
  · exact List.count_filter (by simpa using hH)
  · exact List.count_filter (by simpa using hD)

/-- Witness for C10: `rain` requested three times is classified three times
and joined three times into the `"hourly"` parameter. -/
theorem classification_no_dedup_witness :
    (classify_hourly ["rain", "rain", "rain"]).count "rain" = 3 ∧
    dictGet "hourly" (build_params configRainThrice)
      = some (PVal.str "rain,rain,rain") := by
  constructor
  · have h := (classification_no_dedup ["rain", "rain", "rain"] "rain").1
        (by decide)
    rw [h]
    decide
  · have h := (classification_no_dedup [] "rain").2.2.1 configRainThrice
        (by decide)
    rw [h]
    rfl

/-- Claim C8 (confirmed).  For the spec's hourly-only round-trip payload,
`to_dataframe` returns a single table (not a mapping) whose index is the two
parsed timestamps and whose only column is `temperature_2m` with values
`[1.0, 2.0]`. -/
theorem to_dataframe_hourly_roundtrip :
    to_dataframe (some hourlyRoundTripPayload)
      = .ok (.single
          { index := [to_datetime (JVal.str "2020-01-01T00:00"),
                      to_datetime (JVal.str "2020-01-01T01:00")],
            columns := [("temperature_2m", [JVal.num 1, JVal.num 2])] }) :=
  rfl

end OpenMeteo
